import Mathlib

/-!
Verification of the core of the go-mysql-server slice: identifier quoting
(sql/generate_create_table_statement.go), the column-default evaluator
(sql/column_default.go), the plan builder fragments (sql/planbuilder/from.go,
sql/planbuilder/window_frame_factory.go), and the indexed-table-access /
lookup-builder machinery (sql/plan/indexed_table_access.go).

Go strings are modelled as `List Char`, Go `interface{}` values as `Option α`
(with `none` for Go `nil`), Go nil-able pointers as `Option` of the pointee,
and fallible functions as `Except`.
-/

/-! ## QuoteIdentifier (GenerateCreateTableStatement file) -/

/-- The backtick character, written via its code point. -/
def backtickChar : Char := Char.ofNat 96

/-- Go `strings.ReplaceAll(id, [backtick], [two backticks])`: since the pattern
is a single character, ReplaceAll maps each character independently. -/
def escapeBackticks (s : List Char) : List Char :=
  s.flatMap (fun c => if c = backtickChar then [backtickChar, backtickChar] else [c])

/-- `QuoteIdentifier` wraps the identifier in backticks after escaping every
backtick by doubling it (source: `strings.ReplaceAll` then `fmt.Sprintf`). -/
def QuoteIdentifier (id : List Char) : List Char :=
  backtickChar :: (escapeBackticks id ++ [backtickChar])

lemma escapeBackticks_nil : escapeBackticks [] = [] := rfl

lemma escapeBackticks_cons (c : Char) (cs : List Char) :
    escapeBackticks (c :: cs)
      = (if c = backtickChar then [backtickChar, backtickChar] else [c]) ++ escapeBackticks cs := by
  simp [escapeBackticks]

lemma escapeBackticks_injective :
    ∀ s t : List Char, escapeBackticks s = escapeBackticks t → s = t := by
  intro s
  induction s with
  | nil =>
    intro t h
    cases t with
    | nil => rfl
    | cons b bs =>
      rw [escapeBackticks_nil, escapeBackticks_cons] at h
      by_cases hb : b = backtickChar <;> simp [hb] at h
  | cons a as ih =>
    intro t h
    cases t with
    | nil =>
      rw [escapeBackticks_nil, escapeBackticks_cons] at h
      by_cases ha : a = backtickChar <;> simp [ha] at h
    | cons b bs =>
      rw [escapeBackticks_cons, escapeBackticks_cons] at h
      by_cases ha : a = backtickChar
      · rw [if_pos ha] at h
        by_cases hb : b = backtickChar
        · rw [if_pos hb] at h
          simp only [List.cons_append, List.nil_append] at h
          injection h with h1 h2
          injection h2 with h3 h4
          rw [ha, hb, ih bs h4]
        · rw [if_neg hb] at h
          simp only [List.cons_append, List.nil_append] at h
          injection h with h1 h2
          exact absurd h1.symm hb
      · rw [if_neg ha] at h
        by_cases hb : b = backtickChar
        · rw [if_pos hb] at h
          simp only [List.cons_append, List.nil_append] at h
          injection h with h1 h2
          exact absurd h1 ha
        · rw [if_neg hb] at h
          simp only [List.cons_append, List.nil_append] at h
          injection h with h1 h2
          rw [h1, ih bs h2]

/-- Claim C10: `QuoteIdentifier s` is a backtick, then `s` with every backtick
doubled, then a closing backtick; and `QuoteIdentifier` is injective. -/
theorem c10_quote_identifier :
    (∀ s : List Char, QuoteIdentifier s = [backtickChar] ++ escapeBackticks s ++ [backtickChar])
    ∧ ∀ s t : List Char, QuoteIdentifier s = QuoteIdentifier t → s = t := by
  constructor
  · intro s; rfl
  · intro s t h
    injection h with h0 h1
    exact escapeBackticks_injective s t (List.append_cancel_right h1)

/-- Witness for C10: the injectivity direction applied at a concrete identifier. -/
theorem c10_witness : ([Char.ofNat 97] : List Char) = [Char.ofNat 97] :=
  c10_quote_identifier.2 [Char.ofNat 97] [Char.ofNat 97] rfl

/-! ## ColumnDefaultValue (sql/column_default.go)

`κ` is the evaluation context type, `ρ` the row type, `ν` the value type
(a Go `interface{}` result is `Option ν`, `none` meaning SQL NULL).
-/

/-- Errors surfaced by the column-default evaluator. -/
inductive SqlError where
  | columnDefaultReturnedNull
  | incompatibleDefaultType
  | valueOutOfRange
  | otherError (id : Nat)
deriving DecidableEq

/-- The `sql.Expression` interface as consumed by `ColumnDefaultValue`:
an evaluator plus the `IsNullable`/`Resolved` predicates. -/
structure SqlExpr (κ ρ ν : Type) where
  eval : κ → ρ → Except SqlError (Option ν)
  nullable : Bool
  resolved : Bool

/-- The `sql.Type` interface as consumed here: `Convert` returns the converted
value and an in-range flag, or an error. -/
structure SqlType (ν : Type) where
  convert : Option ν → Except Unit (Option ν × Bool)

/-- `sql.ColumnDefaultValue` (the non-nil struct). A nil
`*ColumnDefaultValue` is represented by `none : Option (ColumnDefaultValue ..)`. -/
structure ColumnDefaultValue (κ ρ ν : Type) where
  expr : SqlExpr κ ρ ν
  outType : Option (SqlType ν)
  literal : Bool
  returnNil : Bool
  parenthesized : Bool

/-- `ColumnDefaultValue.Eval`: nil receiver yields `(nil, nil)`; otherwise the
inner expression is evaluated, a nil result with `ReturnNil=false` raises
`ErrColumnDefaultReturnedNull`, and a set `OutType` converts the result
(`ErrIncompatibleDefaultType` on error, `ErrValueOutOfRange` out of range). -/
def cdvEval {κ ρ ν : Type} (e : Option (ColumnDefaultValue κ ρ ν)) (ctx : κ) (r : ρ) :
    Except SqlError (Option ν) :=
  match e with
  | none => Except.ok none
  | some d =>
    match d.expr.eval ctx r with
    | Except.error err => Except.error err
    | Except.ok val =>
      if val.isNone && !d.returnNil then Except.error SqlError.columnDefaultReturnedNull
      else
        match d.outType with
        | none => Except.ok val
        | some t =>
          match t.convert val with
          | Except.error _ => Except.error SqlError.incompatibleDefaultType
          | Except.ok (v, inRange) =>
            if !inRange then Except.error SqlError.valueOutOfRange
            else Except.ok v

/-- `ColumnDefaultValue.IsLiteral`: a nil receiver is the literal nil, hence true. -/
def cdvIsLiteral {κ ρ ν : Type} (e : Option (ColumnDefaultValue κ ρ ν)) : Bool :=
  match e with
  | none => true
  | some d => d.literal

/-- `ColumnDefaultValue.IsNullable`: nil receiver is nullable; otherwise false
when `ReturnNil` is false, else the inner expression's nullability. -/
def cdvIsNullable {κ ρ ν : Type} (e : Option (ColumnDefaultValue κ ρ ν)) : Bool :=
  match e with
  | none => true
  | some d => if !d.returnNil then false else d.expr.nullable

/-- `ColumnDefaultValue.Resolved`: nil receiver is resolved; otherwise false
when `OutType` is nil, else the inner expression's resolution flag. -/
def cdvResolved {κ ρ ν : Type} (e : Option (ColumnDefaultValue κ ρ ν)) : Bool :=
  match e with
  | none => true
  | some d => if d.outType.isNone then false else d.expr.resolved

/-- Claim C5: for a non-absent default with `mayReturnNil=false`, an inner
expression evaluating to NULL without error makes `Eval` return
`ErrColumnDefaultReturnedNull` (so NULL is never returned as a value). -/
theorem c5_default_null_error {κ ρ ν : Type} (d : ColumnDefaultValue κ ρ ν) (ctx : κ) (r : ρ)
    (hmay : d.returnNil = false)
    (hnull : d.expr.eval ctx r = Except.ok none) :
    cdvEval (some d) ctx r = Except.error SqlError.columnDefaultReturnedNull := by
  simp [cdvEval, hnull, hmay]

def c5Expr : SqlExpr Unit Unit Nat :=
  { eval := fun _ _ => Except.ok none, nullable := true, resolved := true }

def c5Cdv : ColumnDefaultValue Unit Unit Nat :=
  { expr := c5Expr, outType := none, literal := true, returnNil := false, parenthesized := false }

/-- Witness for C5 at a concrete default value whose expression yields NULL. -/
theorem c5_witness :
    cdvEval (some c5Cdv) () () = Except.error SqlError.columnDefaultReturnedNull :=
  c5_default_null_error c5Cdv () () rfl rfl

/-- Claim C8: for the absent (nil) ColumnDefaultValue every method is total and
error-free: `Eval` gives `(nil, no error)`, `IsLiteral`, `IsNullable` and
`Resolved` all give true. -/
theorem c8_absent_total {κ ρ ν : Type} (ctx : κ) (r : ρ) :
    cdvEval (none : Option (ColumnDefaultValue κ ρ ν)) ctx r = Except.ok none
    ∧ cdvIsLiteral (none : Option (ColumnDefaultValue κ ρ ν)) = true
    ∧ cdvIsNullable (none : Option (ColumnDefaultValue κ ρ ν)) = true
    ∧ cdvResolved (none : Option (ColumnDefaultValue κ ρ ν)) = true :=
  ⟨rfl, rfl, rfl, rfl⟩

/-! ## Window frame factory (sql/planbuilder/window_frame_factory.go)

The vitess AST types are modelled from their use sites: `frame` is a nilable
pointer (`Option Frame`), `Extent` a struct, and its `Start`/`End` bounds
nilable pointers. Evaluation runs in `Except Unit` so that a Go nil-pointer
dereference is an `Except.error ()` instead of a value.
-/

inductive FrameBoundType where
  | exprPreceding
  | exprFollowing
  | currentRow
  | unboundedPreceding
  | unboundedFollowing
deriving DecidableEq

structure FrameBound where
  btype : FrameBoundType
deriving DecidableEq

structure FrameExtent where
  start : Option FrameBound
  endBound : Option FrameBound
deriving DecidableEq

structure Frame where
  extent : FrameExtent
deriving DecidableEq

/-- The left disjunct of the two predicates below:
`frame != nil && frame.Extent.Start != nil && Start.Type == bt`
(every access here is guarded, so it is a plain boolean). -/
def frameStartIs (bt : FrameBoundType) (frame : Option Frame) : Bool :=
  match frame with
  | some f =>
    match f.extent.start with
    | some s => s.btype == bt
    | none => false
  | none => false

/-- `getFrameUnboundedPreceding`. Go operator precedence groups the body as
`(frame != nil && Start != nil && Start.Type == UnboundedPreceding) ||
(frame.Extent.End != nil && End.Type == UnboundedPreceding)`; `||`
short-circuits, and the second disjunct reads `frame.Extent` without a nil
check, which on a nil frame is a nil-pointer dereference (modelled as
`Except.error ()`). -/
def getFrameUnboundedPreceding (frame : Option Frame) : Except Unit Bool :=
  if frameStartIs FrameBoundType.unboundedPreceding frame then Except.ok true
  else
    match frame with
    | none => Except.error ()
    | some f =>
      Except.ok
        (match f.extent.endBound with
         | some e => e.btype == FrameBoundType.unboundedPreceding
         | none => false)

/-- `getFrameUnboundedFollowing`, with the same grouping and the same
unguarded `frame.Extent.End` access in the second disjunct. -/
def getFrameUnboundedFollowing (frame : Option Frame) : Except Unit Bool :=
  if frameStartIs FrameBoundType.unboundedFollowing frame then Except.ok true
  else
    match frame with
    | none => Except.error ()
    | some f =>
      Except.ok
        (match f.extent.endBound with
         | some e => e.btype == FrameBoundType.unboundedFollowing
         | none => false)

/-- Counterexample to C9 as stated: at the absent (nil) frame both predicates
dereference the nil frame instead of evaluating totally to a boolean. -/
theorem c9_counterexample :
    getFrameUnboundedPreceding none = Except.error ()
    ∧ getFrameUnboundedFollowing none = Except.error () :=
  ⟨rfl, rfl⟩

/-- Claim C9 (amended): for every present (non-nil) frame — in particular
frames whose end extent is absent while the start is set — both predicates
evaluate totally to a boolean without dereferencing an absent extent. -/
theorem c9_frame_predicates_total (f : Frame) :
    (∃ b, getFrameUnboundedPreceding (some f) = Except.ok b)
    ∧ (∃ b, getFrameUnboundedFollowing (some f) = Except.ok b) := by
  constructor
  · by_cases h : frameStartIs FrameBoundType.unboundedPreceding (some f)
    · exact ⟨true, by simp [getFrameUnboundedPreceding, h]⟩
    · refine ⟨(match f.extent.endBound with
                | some e => e.btype == FrameBoundType.unboundedPreceding
                | none => false), ?_⟩
      simp [getFrameUnboundedPreceding, h]
  · by_cases h : frameStartIs FrameBoundType.unboundedFollowing (some f)
    · exact ⟨true, by simp [getFrameUnboundedFollowing, h]⟩
    · refine ⟨(match f.extent.endBound with
                | some e => e.btype == FrameBoundType.unboundedFollowing
                | none => false), ?_⟩
      simp [getFrameUnboundedFollowing, h]

/-! ## buildUnion (sql/planbuilder/from.go)

The union node carries optional limit/offset expressions and sort fields;
limit and offset expressions are modelled as opaque identifiers, sort fields
as column/direction pairs. `buildUnion` receives the already-built children
and the outer sort/limit/offset (produced by `analyzeOrderBy`, `buildLimit`
and `buildOffset`, which are outside this slice); the hoist-and-conflict
logic on a left child that is itself a union is translated verbatim.
-/

inductive UnionErr where
  | conflictingExternalQuery
  | generic (msg : String)
deriving DecidableEq

structure USortField where
  col : Nat
  descending : Bool
deriving DecidableEq

inductive UNode where
  | leaf (id : Nat)
  | union (left right : UNode) (distinct : Bool)
      (limit offset : Option Nat) (sortFields : List USortField)
deriving DecidableEq

/-- `PlanBuilder.buildUnion` after both children are built: when the left
child is a union, hoist its sort/limit/offset into the outer node, erroring
on a conflict (sort first, then limit, then offset, first error wins, as the
single-error abort channel does), and strip them from the inner node. -/
def buildUnion (leftNode rightNode : UNode) (distinct : Bool)
    (limit offset : Option Nat) (sortFields : List USortField) :
    Except UnionErr UNode :=
  match leftNode with
  | UNode.union l r d il io isort => do
    let sortFields ←
      if 0 < isort.length then
        if 0 < sortFields.length then Except.error UnionErr.conflictingExternalQuery
        else pure isort
      else pure sortFields
    let limit ←
      if il.isSome then
        if limit.isSome then Except.error (UnionErr.generic ("conflicing external LIMIT"))
        else pure il
      else pure limit
    let offset ←
      if io.isSome then
        if offset.isSome then Except.error (UnionErr.generic ("conflicing external OFFSET"))
        else pure io
      else pure offset
    pure (UNode.union (UNode.union l r d none none []) rightNode distinct limit offset sortFields)
  | n => pure (UNode.union n rightNode distinct limit offset sortFields)

/-- Counterexample to C6 as stated: when both the inner and the outer union
carry a LIMIT, buildUnion fails with the generic "conflicing external LIMIT"
error, not with ErrConflictingExternalQuery. -/
theorem c6_counterexample :
    buildUnion (UNode.union (UNode.leaf 0) (UNode.leaf 1) true (some 10) none [])
        (UNode.leaf 2) true (some 20) none []
      = Except.error (UnionErr.generic ("conflicing external LIMIT"))
    ∧ UnionErr.generic ("conflicing external LIMIT") ≠ UnionErr.conflictingExternalQuery :=
  ⟨rfl, by decide⟩

/-- Claim C6 (amended): with a union as left child, inner sort/limit/offset
are hoisted into the outer node and the inner node is stripped; a sort/sort
conflict fails with ErrConflictingExternalQuery, while limit/limit and
offset/offset conflicts fail with the generic errors "conflicing external
LIMIT" and "conflicing external OFFSET"; the sort check runs first, then
limit, then offset. -/
theorem c6_union_hoist (l r : UNode) (d : Bool) (il io : Option Nat)
    (isort : List USortField) (rightNode : UNode) (distinct : Bool)
    (limit offset : Option Nat) (sortFields : List USortField) :
    buildUnion (UNode.union l r d il io isort) rightNode distinct limit offset sortFields =
      if 0 < isort.length ∧ 0 < sortFields.length then
        Except.error UnionErr.conflictingExternalQuery
      else if il.isSome ∧ limit.isSome then
        Except.error (UnionErr.generic ("conflicing external LIMIT"))
      else if io.isSome ∧ offset.isSome then
        Except.error (UnionErr.generic ("conflicing external OFFSET"))
      else
        Except.ok (UNode.union (UNode.union l r d none none []) rightNode distinct
          (if il.isSome then il else limit)
          (if io.isSome then io else offset)
          (if 0 < isort.length then isort else sortFields)) := by
  cases isort <;> cases sortFields <;> cases il <;> cases limit <;> cases io <;> cases offset <;>
    simp [buildUnion, Bind.bind, Except.bind, Pure.pure, Except.pure]

/-! ## buildNaturalJoin (sql/planbuilder/from.go)

`scopeColumn` lives in scope.go, outside this slice; it is modelled with the
fields the builder uses — table name, column name and a numeric identity —
with `empty` as the Go zero-value test (a zero id, as produced by
`var matched scopeColumn`). `scalarGf` builds the column's GetField
expression. Plan nodes and scalar expressions are kept as small closed
inductives covering the constructors `buildNaturalJoin` emits.
-/

structure scopeColumn where
  table : String
  col : String
  id : Nat
deriving DecidableEq

/-- Go zero-value test for a `scopeColumn` (`var matched scopeColumn` has id 0). -/
def scopeColumn.isEmpty (c : scopeColumn) : Bool := c.id == 0

/-- The Go zero value of `scopeColumn` (`var matched scopeColumn`). -/
def zeroScopeColumn : scopeColumn := { table := "", col := "", id := 0 }

inductive NJExpr where
  | getField (table col : String)
  | equalsOf (a b : NJExpr)
  | andOf (a b : NJExpr)
deriving DecidableEq

/-- `scopeColumn.scalarGf`: the GetField expression for the column. -/
def scopeColumn.scalarGf (c : scopeColumn) : NJExpr := NJExpr.getField c.table c.col

inductive NJNode where
  | base (id : Nat)
  | crossJoin (l r : NJNode)
  | innerJoin (l r : NJNode) (filter : NJExpr)
deriving DecidableEq

/-- The outputs `buildNaturalJoin` hangs on the out scope: the node, the
visible columns, the projection list it accumulates, and the recorded
right-to-left column redirects. -/
structure NJResult where
  node : NJNode
  outCols : List scopeColumn
  proj : List NJExpr
  redirects : List (scopeColumn × scopeColumn)
deriving DecidableEq

/-- Loop state while walking the right scope's columns. -/
structure NJState where
  outCols : List scopeColumn
  proj : List NJExpr
  redirects : List (scopeColumn × scopeColumn)
  filter : Option NJExpr
deriving DecidableEq

/-- One iteration of the right-column loop of `buildNaturalJoin`: find the
first left column with the same name (`matched` stays the zero value when
none matches); redirect on a match, otherwise project and add the column;
then — unconditionally, as in the source — conjoin
`Equals(matched.scalarGf(), rCol.scalarGf())` onto the filter. -/
def naturalJoinStep (leftCols : List scopeColumn) (st : NJState) (rCol : scopeColumn) : NJState :=
  let matched := (leftCols.find? (fun lCol => lCol.col == rCol.col)).getD zeroScopeColumn
  let st :=
    if !matched.isEmpty then
      { st with redirects := st.redirects ++ [(rCol, matched)] }
    else
      { st with proj := st.proj ++ [rCol.scalarGf], outCols := st.outCols ++ [rCol] }
  let f := NJExpr.equalsOf matched.scalarGf rCol.scalarGf
  let newFilter : Option NJExpr :=
    match st.filter with
    | none => some f
    | some g => some (NJExpr.andOf g f)
  { st with filter := newFilter }

/-- `PlanBuilder.buildNaturalJoin`: copy the left columns into the output
scope and projection, walk the right columns, and emit a cross-join only
when no filter was accumulated, otherwise an inner join with the conjoined
filter. -/
def buildNaturalJoin (leftCols rightCols : List scopeColumn) (leftNode rightNode : NJNode) :
    NJResult :=
  let st0 : NJState :=
    { outCols := leftCols, proj := leftCols.map scopeColumn.scalarGf,
      redirects := [], filter := none }
  let st := rightCols.foldl (naturalJoinStep leftCols) st0
  match st.filter with
  | none =>
    { node := NJNode.crossJoin leftNode rightNode,
      outCols := st.outCols, proj := st.proj, redirects := st.redirects }
  | some f =>
    { node := NJNode.innerJoin leftNode rightNode f,
      outCols := st.outCols, proj := st.proj, redirects := st.redirects }

/-- Claim C3 evidence: for t1(a) NATURAL JOIN t2(c) — no shared column names —
the builder produces an inner join whose filter compares the zero-valued
`matched` column with t2.c, not a cross-join: the equality is conjoined even
when no left column matched, so the cross-join branch is unreachable
whenever the right side has columns. -/
theorem c3_natural_join_no_shared_names :
    buildNaturalJoin [{ table := "t1", col := "a", id := 1 }]
        [{ table := "t2", col := "c", id := 2 }]
        (NJNode.base 0) (NJNode.base 1)
      = { node := NJNode.innerJoin (NJNode.base 0) (NJNode.base 1)
            (NJExpr.equalsOf (NJExpr.getField "" "") (NJExpr.getField "t2" "c")),
          outCols := [{ table := "t1", col := "a", id := 1 },
                      { table := "t2", col := "c", id := 2 }],
          proj := [NJExpr.getField "t1" "a", NJExpr.getField "t2" "c"],
          redirects := [] } := by
  rfl

/-! ## LookupBuilder and IndexedTableAccess (sql/plan/indexed_table_access.go)

`α` is the type of key values (a Go `interface{}` key entry is `Option α`,
`none` for nil), `τ` the type of the column-expression types carried by
ranges (`sql.ColumnExpressionType.Type`). The `sql.Range` machinery lives
outside this slice; a `RangeColumnExpr` is modelled by the four constructor
shapes the builder uses. The Go in-place update `rang[i].LowerBound =
Below(k); rang[i].UpperBound = Above(k)` overwrites both bounds and keeps
the `Typ` field, which on this representation is `closed k k (typeOf old)`.
-/

inductive RangeColumnExpr (α τ : Type) where
  | closed (lo hi : Option α) (t : τ)
  | isNull (t : τ)
  | isNotNull (t : τ)
  | allOf (t : τ)
deriving DecidableEq

/-- The `Typ` field shared by every range-column-expression shape. -/
def RangeColumnExpr.typeOf {α τ : Type} : RangeColumnExpr α τ → τ
  | RangeColumnExpr.closed _ _ t => t
  | RangeColumnExpr.isNull t => t
  | RangeColumnExpr.isNotNull t => t
  | RangeColumnExpr.allOf t => t

/-- The `sql.Index` interface as consumed here: `IsUnique()`,
`ColumnExpressionTypes()` and `CanSupport(ranges...)`. -/
structure Index (α τ : Type) where
  isUnique : Bool
  cets : List τ
  canSupport : List (List (RangeColumnExpr α τ)) → Bool

/-- `sql.IndexLookup` (a lookup with a nil `Index`, i.e. `IsEmpty()`, is
represented as `none : Option (IndexLookup α τ)` at its use sites). -/
structure IndexLookup (α τ : Type) where
  index : Index α τ
  ranges : List (List (RangeColumnExpr α τ))
  isPointLookup : Bool
  isEmptyRange : Bool
  isSpatialLookup : Bool
  isReverse : Bool := false

/-- A key expression of the builder: only its `Type().Zero()` value is
needed here (`GetKey`, which evaluates it against a row, feeds `GetLookup`
with a key list of the same length). -/
structure KeyExpr (α : Type) where
  zero : Option α

/-- `plan.LookupBuilder`: the scratch `rang` starts out nil. -/
structure LookupBuilder (α τ : Type) where
  keyExprs : List (KeyExpr α)
  matchesNullMask : List Bool
  index : Index α τ
  cets : List τ
  rang : Option (List (RangeColumnExpr α τ))
  nullSafe : Bool
  isPointLookup : Bool
  emptyRange : Bool

/-- `NewLookupBuilder`: caches the index's column expression types and
clears `nullSafe` when any null mask bit is set. -/
def NewLookupBuilder {α τ : Type} (index : Index α τ) (keyExprs : List (KeyExpr α))
    (matchesNullMask : List Bool) : LookupBuilder α τ :=
  { index := index,
    keyExprs := keyExprs,
    matchesNullMask := matchesNullMask,
    cets := index.cets,
    rang := none,
    nullSafe := !(matchesNullMask.any (fun b => b)),
    isPointLookup := true,
    emptyRange := false }

/-- `LookupBuilder.GetZeroKey`: one `Type().Zero()` value per key expression. -/
def GetZeroKey {α τ : Type} (lb : LookupBuilder α τ) : List (Option α) :=
  lb.keyExprs.map (fun e => e.zero)

/-- The first loop plus the padding loop of `LookupBuilder.initializeRange`,
walking the cets (the allocated range has length `len(lb.cets)`): for
`i < len(key)` a null-mask position becomes a null/not-null range and a
plain position a closed `[k,k]` range; positions past the key are padded
with the all range. A key longer than the cets or the mask would panic in
Go (out-of-range index); the extra list arguments are simply exhausted here. -/
def initRangeList {α τ : Type} :
    List τ → List Bool → List (Option α) → List (RangeColumnExpr α τ)
  | [], _, _ => []
  | t :: cs, mask, [] => RangeColumnExpr.allOf t :: initRangeList cs mask []
  | t :: cs, mask, k :: ks =>
    (if mask.headD false then
      (if k.isNone then RangeColumnExpr.isNull t else RangeColumnExpr.isNotNull t)
     else RangeColumnExpr.closed k k t)
    :: initRangeList cs mask.tail ks

/-- `LookupBuilder.initializeRange`: allocates the range at the index arity,
recomputes `emptyRange` (any nil key value — the source checks this before
consulting the null mask) and `isPointLookup` (full-arity key with no nils;
the padding loop clears it, which coincides with the arity test). -/
def initializeRange {α τ : Type} (lb : LookupBuilder α τ) (key : List (Option α)) :
    LookupBuilder α τ :=
  { lb with
    rang := some (initRangeList lb.cets lb.matchesNullMask key),
    emptyRange := key.any (fun k => k.isNone),
    isPointLookup := (key.length == lb.cets.length) && key.all (fun k => k.isSome) }

/-- The update loop of `LookupBuilder.GetLookup` on an already-allocated
range (`for i := range key`): null-mask positions are rebuilt from the cets
type, plain positions get both bounds overwritten with the key value
(keeping the old `Typ`), and positions at or past the key length are left
untouched. -/
def updateRangeList {α τ : Type} :
    List (RangeColumnExpr α τ) → List τ → List Bool → List (Option α) →
      List (RangeColumnExpr α τ)
  | [], _, _, _ => []
  | rs, _, _, [] => rs
  | old :: rs, cets, mask, k :: ks =>
    (if mask.headD false then
      (if k.isNone then RangeColumnExpr.isNull (cets.headD old.typeOf)
       else RangeColumnExpr.isNotNull (cets.headD old.typeOf))
     else RangeColumnExpr.closed k k old.typeOf)
    :: updateRangeList rs cets.tail mask.tail ks

/-- `LookupBuilder.GetLookup` (it returns a perpetually nil error in the
source, so the model is pure): initialize the range on first use, update it
in place afterwards; the lookup is a point lookup only when the builder is
null-safe, the key covers the arity with no nils, and the index is unique;
`IsEmptyRange` is set whenever any key position was nil. The mutated
builder is returned alongside the lookup. -/
def GetLookup {α τ : Type} (lb : LookupBuilder α τ) (key : List (Option α)) :
    IndexLookup α τ × LookupBuilder α τ :=
  match lb.rang with
  | none =>
    let lbInit := initializeRange lb key
    ({ index := lb.index,
       ranges := [(initRangeList lb.cets lb.matchesNullMask key : List (RangeColumnExpr α τ))],
       isPointLookup := lb.nullSafe && lbInit.isPointLookup && lb.index.isUnique,
       isEmptyRange := lbInit.emptyRange,
       isSpatialLookup := false }, lbInit)
  | some r0 =>
    let r := updateRangeList r0 lb.cets lb.matchesNullMask key
    let empty := key.any (fun k => k.isNone)
    let point := (key.length == lb.cets.length) && key.all (fun k => k.isSome)
    ({ index := lb.index,
       ranges := [r],
       isPointLookup := lb.nullSafe && point && lb.index.isUnique,
       isEmptyRange := empty,
       isSpatialLookup := false },
     { lb with rang := some r, emptyRange := empty, isPointLookup := point })

/-- The `sql.IndexAddressableTable` capability of a (already unwrapped)
table, the only part of the table interface these constructors consult. -/
structure TableM where
  isIndexAddressable : Bool

/-- Errors of the indexed-table-access constructors. -/
inductive PlanErr where
  | invalidLookupForIndexedTable
  | genericError (msg : String)
deriving DecidableEq

/-- `plan.IndexedTableAccess`: either a static lookup (non-nil `Index`) or a
`LookupBuilder` for dynamic per-row lookups. -/
structure IndexedTableAccess (α τ : Type) where
  table : TableM
  lookup : Option (IndexLookup α τ)
  lb : Option (LookupBuilder α τ)

/-- `NewIndexedAccessForResolvedTable`: requires an index-addressable table,
builds the zero-key lookup, and fails with `ErrInvalidLookupForIndexedTable`
when the index cannot support the produced ranges. -/
def NewIndexedAccessForResolvedTable {α τ : Type} (table : TableM) (lb : LookupBuilder α τ) :
    Except PlanErr (IndexedTableAccess α τ) :=
  if !table.isIndexAddressable then
    Except.error (PlanErr.genericError ("table is not index addressable"))
  else
    let built := GetLookup lb (GetZeroKey lb)
    if !(built.1.index.canSupport built.1.ranges) then
      Except.error PlanErr.invalidLookupForIndexedTable
    else Except.ok { table := table, lookup := none, lb := some built.2 }

/-- `NewStaticIndexedAccessForResolvedTable`: same shape with a precomputed
lookup. -/
def NewStaticIndexedAccessForResolvedTable {α τ : Type} (table : TableM)
    (lookup : IndexLookup α τ) : Except PlanErr (IndexedTableAccess α τ) :=
  if !table.isIndexAddressable then
    Except.error (PlanErr.genericError ("table is not index addressable"))
  else if !(lookup.index.canSupport lookup.ranges) then
    Except.error PlanErr.invalidLookupForIndexedTable
  else Except.ok { table := table, lookup := some lookup, lb := none }

/-- `IndexedTableAccess.WithTable` (its `ResolvedTable.WithTable` call, which
lives outside this slice, is modelled as succeeding): after the
addressability check it rebuilds or reuses the lookup and then — with the
polarity as written in the source — returns `ErrInvalidLookupForIndexedTable`
when `CanSupport` is TRUE and succeeds when it is false. With neither a
static lookup nor a builder the source would call `CanSupport` on a nil
`Index` (a Go nil dereference, modelled as a generic error). -/
def WithTable {α τ : Type} (i : IndexedTableAccess α τ) (table : TableM) :
    Except PlanErr (IndexedTableAccess α τ) :=
  if !table.isIndexAddressable then
    Except.error (PlanErr.genericError ("table does not support indexed access"))
  else
    let lookupOpt : Option (IndexLookup α τ) :=
      match i.lookup with
      | some l => some l
      | none =>
        match i.lb with
        | some lb => some (GetLookup lb (GetZeroKey lb)).1
        | none => none
    match lookupOpt with
    | some lookup =>
      if lookup.index.canSupport lookup.ranges then
        Except.error PlanErr.invalidLookupForIndexedTable
      else Except.ok { i with table := table }
    | none => Except.error (PlanErr.genericError ("nil Index dereference in CanSupport"))

/-- A range list is padded with the all range at every position at or past
the key length. -/
def paddedRange {α τ : Type} (r : List (RangeColumnExpr α τ)) (k : Nat) : Prop :=
  ∀ i e, k ≤ i → r.get? i = some e → ∃ t, e = RangeColumnExpr.allOf t

lemma initRangeList_length {α τ : Type} (cets : List τ) (mask : List Bool)
    (key : List (Option α)) :
    (initRangeList cets mask key).length = cets.length := by
  induction cets generalizing mask key with
  | nil => rfl
  | cons t cs ih =>
    cases key with
    | nil => simp [initRangeList, ih]
    | cons k ks => simp [initRangeList, ih]

lemma initRangeList_padded {α τ : Type} (cets : List τ) (mask : List Bool)
    (key : List (Option α)) :
    paddedRange (initRangeList cets mask key : List (RangeColumnExpr α τ)) key.length := by
  induction cets generalizing mask key with
  | nil =>
    intro i e hk hget
    simp [initRangeList] at hget
  | cons t cs ih =>
    intro i e hk hget
    cases key with
    | nil =>
      cases i with
      | zero =>
        simp [initRangeList] at hget
        exact ⟨t, hget.symm⟩
      | succ n =>
        simp only [initRangeList, List.get?_cons_succ] at hget
        exact ih mask [] n e (Nat.zero_le n) hget
    | cons k ks =>
      cases i with
      | zero => simp at hk
      | succ n =>
        simp only [initRangeList, List.get?_cons_succ] at hget
        have hn : ks.length ≤ n := by simpa using hk
        exact ih mask.tail ks n e hn hget

lemma updateRangeList_length {α τ : Type} (r : List (RangeColumnExpr α τ)) (cets : List τ)
    (mask : List Bool) (key : List (Option α)) :
    (updateRangeList r cets mask key).length = r.length := by
  induction r generalizing cets mask key with
  | nil => cases key <;> rfl
  | cons old rs ih =>
    cases key with
    | nil => rfl
    | cons k ks => simp [updateRangeList, ih]

lemma updateRangeList_get_of_le {α τ : Type} (r : List (RangeColumnExpr α τ)) (cets : List τ)
    (mask : List Bool) (key : List (Option α)) (i : Nat) (h : key.length ≤ i) :
    (updateRangeList r cets mask key).get? i = r.get? i := by
  induction r generalizing cets mask key i with
  | nil => cases key <;> rfl
  | cons old rs ih =>
    cases key with
    | nil => rfl
    | cons k ks =>
      cases i with
      | zero => simp at h
      | succ n =>
        simp only [updateRangeList, List.get?_cons_succ]
        exact ih cets.tail mask.tail ks n (by simpa using h)

/-- Claim C7: on both the first (initializeRange) and subsequent (in-place
update) paths, the range held by the builder and returned in the lookup has
length exactly the index key arity, and every position at or past the key
length holds the all range (for the update path, provided the stored range
already satisfied the invariant, as every range the builder ever stores
does). -/
theorem c7_range_arity {α τ : Type} (lb : LookupBuilder α τ) (key : List (Option α))
    (hr : ∀ r0, lb.rang = some r0 → r0.length = lb.cets.length ∧ paddedRange r0 key.length) :
    ∃ r, (GetLookup lb key).2.rang = some r
      ∧ (GetLookup lb key).1.ranges = [r]
      ∧ r.length = lb.cets.length
      ∧ paddedRange r key.length := by
  cases hrang : lb.rang with
  | none =>
    refine ⟨initRangeList lb.cets lb.matchesNullMask key, ?_, ?_, ?_, ?_⟩
    · simp [GetLookup, hrang, initializeRange]
    · simp [GetLookup, hrang]
    · exact initRangeList_length lb.cets lb.matchesNullMask key
    · exact initRangeList_padded lb.cets lb.matchesNullMask key
  | some r0 =>
    obtain ⟨hlen0, hpad0⟩ := hr r0 hrang
    refine ⟨updateRangeList r0 lb.cets lb.matchesNullMask key, ?_, ?_, ?_, ?_⟩
    · simp [GetLookup, hrang]
    · simp [GetLookup, hrang]
    · rw [updateRangeList_length, hlen0]
    · intro i e hk hget
      rw [updateRangeList_get_of_le _ _ _ _ _ hk] at hget
      exact hpad0 i e hk hget

def c7Idx : Index Int Unit :=
  { isUnique := false, cets := [(), ()], canSupport := fun _ => true }

def c7Lb : LookupBuilder Int Unit := NewLookupBuilder c7Idx [{ zero := some 1 }] [false]

/-- Witness for C7: a fresh builder over a two-column index with a
one-element key. -/
theorem c7_witness :
    ∃ r, (GetLookup c7Lb [some (4 : Int)]).2.rang = some r
      ∧ (GetLookup c7Lb [some (4 : Int)]).1.ranges = [r]
      ∧ r.length = c7Lb.cets.length
      ∧ paddedRange r [some (4 : Int)].length :=
  c7_range_arity c7Lb [some 4] (fun r0 h => by simp [c7Lb, NewLookupBuilder] at h)

/-- Claim C1 (amended): for a full-arity key with no NULLs, the lookup's
isPointLookup equals (no null-safe mask bit set) AND index.unique — it
matches index.unique only when the builder is null-safe, and is false
whenever any `<=>` position is present. -/
theorem c1_point_lookup {α τ : Type} (idx : Index α τ) (keyExprs : List (KeyExpr α))
    (mask : List Bool) (key : List (Option α))
    (hke : keyExprs.length = idx.cets.length)
    (hkey : key.length = keyExprs.length)
    (hsome : key.all (fun k => k.isSome) = true) :
    (GetLookup (NewLookupBuilder idx keyExprs mask) key).1.isPointLookup
      = (!(mask.any (fun b => b)) && idx.isUnique) := by
  have hlen : key.length = idx.cets.length := hkey.trans hke
  simp [GetLookup, NewLookupBuilder, initializeRange, hlen, hsome]

def c1Idx : Index Int Unit :=
  { isUnique := true, cets := [()], canSupport := fun _ => true }

/-- Counterexample to C1 as stated: a unique index with the single `<=>`
mask bit set and a full-arity NULL-free key yields isPointLookup = false,
while index.unique is true — the mask is not irrelevant. -/
theorem c1_counterexample :
    ¬((GetLookup (NewLookupBuilder c1Idx [{ zero := some 0 }] [true])
        [some (7 : Int)]).1.isPointLookup = c1Idx.isUnique) := by
  decide

/-- Witness for C1 (amended) on an all-false mask. -/
theorem c1_witness :
    (GetLookup (NewLookupBuilder c1Idx [{ zero := some 0 }] [false])
        [some (5 : Int)]).1.isPointLookup
      = (!([false].any (fun b => b)) && c1Idx.isUnique) :=
  c1_point_lookup c1Idx [{ zero := some 0 }] [false] [some 5] rfl rfl rfl

def c4Idx : Index Int Unit :=
  { isUnique := false, cets := [()], canSupport := fun _ => true }

/-- Claim C4 evidence: with the single position null-safe (`<=>`) and a NULL
key value, the produced range is the null range — which per the builder's
own documentation should match NULL rows — and yet IsEmptyRange is set,
because the source flags any nil key value before consulting the null mask. -/
theorem c4_empty_range_bug :
    (GetLookup (NewLookupBuilder c4Idx [{ zero := some 0 }] [true])
        [(none : Option Int)]).1.isEmptyRange = true
    ∧ (GetLookup (NewLookupBuilder c4Idx [{ zero := some 0 }] [true])
        [(none : Option Int)]).1.ranges = [[RangeColumnExpr.isNull ()]] :=
  ⟨rfl, rfl⟩

def c2Table : TableM := { isIndexAddressable := true }

def c2Idx (b : Bool) : Index Int Unit :=
  { isUnique := false, cets := [()], canSupport := fun _ => b }

def c2Lookup (b : Bool) : IndexLookup Int Unit :=
  { index := c2Idx b, ranges := [[RangeColumnExpr.allOf ()]],
    isPointLookup := false, isEmptyRange := false, isSpatialLookup := false }

def c2Ita (b : Bool) : IndexedTableAccess Int Unit :=
  { table := c2Table, lookup := some (c2Lookup b), lb := none }

/-- Claim C2 evidence: the constructors error exactly when the index cannot
support the ranges, but `WithTable` has the polarity inverted — it returns
ErrInvalidLookupForIndexedTable precisely when `CanSupport` is true and
succeeds when it is false. -/
theorem c2_withtable_polarity :
    (WithTable (c2Ita true) c2Table = Except.error PlanErr.invalidLookupForIndexedTable)
    ∧ (WithTable (c2Ita false) c2Table
        = Except.ok { table := c2Table, lookup := some (c2Lookup false), lb := none })
    ∧ (NewStaticIndexedAccessForResolvedTable c2Table (c2Lookup false)
        = Except.error PlanErr.invalidLookupForIndexedTable)
    ∧ (NewStaticIndexedAccessForResolvedTable c2Table (c2Lookup true)
        = Except.ok { table := c2Table, lookup := some (c2Lookup true), lb := none })
    ∧ (NewIndexedAccessForResolvedTable c2Table
          (NewLookupBuilder (c2Idx false) [{ zero := some 0 }] [false])
        = Except.error PlanErr.invalidLookupForIndexedTable)
    ∧ (∃ n, NewIndexedAccessForResolvedTable c2Table
          (NewLookupBuilder (c2Idx true) [{ zero := some 0 }] [false])
        = Except.ok n) :=
  ⟨rfl, rfl, rfl, rfl, rfl, ⟨_, rfl⟩⟩
